import Mathlib

/-!
# Verification of the warc-bench evaluation runner

Shallow embedding of the evaluation-scheduling core of the repository:
* `src/orby/digitalagent/evaluation/eval_runner.py`
  (`select_env_ids`, `shuffle_env_ids`, `get_env_ids_and_task_kwargs`,
  `run_single_benchmark`, `_benchmark_batch_split`, `_divide_eval_config`,
  `_create_all_wa_service_instances_multithreads`)
* `src/orby/digitalagent/evaluation/eval_loop.py`
  (`run_example`, `run_examples_in_subprocess`)
* `src/orby/digitalagent/utils/process_utils.py` (`run_with_timeout`)
* `src/orby/trajectory_collector/ray_scripts/frequency_limiter.py`
  (`FrequencyLimiter`)

Python strings are modelled by `String`; Python machine integers by `Int`
(they are unbounded in CPython); Python `float` rewards/times by `ℚ`
(the loop only copies and compares these values, it never does
floating-point arithmetic on them); Python `None` by `Option`.
Code that can raise is modelled in `Except String` / `Option`, the error
string naming the Python exception.  External collaborators (the gym
registry, `ENV_CONFIGS`, `resolve_attr`, subprocess execution) are
parameters of the embedding.
-/

namespace WarcBench

/-- Substring search on character lists: `containsSub l pat` is true iff
`pat` occurs contiguously in `l` (a prefix of some suffix of `l`). -/
def containsSub : List Char → List Char → Bool
  | l, pat =>
    if pat.isPrefixOf l then true
    else
      match l with
      | [] => false
      | _ :: t => containsSub t pat

/-- Python `pat in s` (substring containment) on the code-point
sequences. -/
def strContains (s pat : String) : Bool :=
  containsSub s.data pat.data

/-- Python string `<=`: lexicographic comparison of the code-point
sequences (CPython compares strings by code point, a shorter prefix
comparing less). -/
def charListLe : List Char → List Char → Bool
  | [], _ => true
  | _ :: _, [] => false
  | a :: as, b :: bs =>
    if a.toNat < b.toNat then true
    else if a.toNat = b.toNat then charListLe as bs
    else false

/-- The descending comparison used by `list.sort(reverse=True)` on strings:
`pyStrGe a b` iff `b <= a` in Python string order. -/
def pyStrGe (a b : String) : Bool :=
  charListLe b.data a.data

/-- Python `s.startswith(pre)`: the character sequence of `pre` is a prefix
of the character sequence of `s`. -/
def pyStartswith (s pre : String) : Bool :=
  pre.data.isPrefixOf s.data

/-- Python truthiness of an optional string (`None` and `""` are falsy). -/
def strFalsy : Option String → Bool
  | none => true
  | some s => s = ""

/-- Python `lst * k` for a possibly non-positive `k` (empty for `k ≤ 0`). -/
def pyListMul (l : List α) (k : Int) : List α :=
  (List.replicate k.toNat l).flatten

/-! ## `eval_config.py` — the configuration data model -/

/-- `ViewportSize` (pydantic model, eval_config.py). The `float` fields are
pure pass-through data for the functions verified here; they are modelled
as `ℚ`. -/
structure ViewportSize where
  width : ℚ
  height : ℚ
deriving DecidableEq, Repr

/-- `ModelConfig` (pydantic model, eval_config.py): provider, name,
generation parameters, and optional nested sub-configs for the
planner/executor/grounder roles. -/
inductive ModelConfig where
  | mk
      (provider : String)
      (name : String)
      (temperature : ℚ)
      (max_tokens : Int)
      (frequency_penalty : ℚ)
      (grounder : Option ModelConfig)
      (executor : Option ModelConfig)
      (planner : Option ModelConfig)

mutual

/-- Boolean structural equality on `ModelConfig` (deriving cannot handle the
nested recursion through `Option`). -/
def ModelConfig.beq : ModelConfig → ModelConfig → Bool
  | .mk p1 n1 t1 m1 f1 g1 e1 l1, .mk p2 n2 t2 m2 f2 g2 e2 l2 =>
    p1 == p2 && n1 == n2 && t1 == t2 && m1 == m2 && f1 == f2 &&
    ModelConfig.obeq g1 g2 && ModelConfig.obeq e1 e2 && ModelConfig.obeq l1 l2

/-- `ModelConfig.beq` lifted to optional sub-configs. -/
def ModelConfig.obeq : Option ModelConfig → Option ModelConfig → Bool
  | none, none => true
  | some a, some b => ModelConfig.beq a b
  | _, _ => false

end

mutual

theorem ModelConfig.beq_iff : ∀ a b : ModelConfig, ModelConfig.beq a b = true ↔ a = b
  | .mk p1 n1 t1 m1 f1 g1 e1 l1, .mk p2 n2 t2 m2 f2 g2 e2 l2 => by
    simp only [ModelConfig.beq, Bool.and_eq_true, beq_iff_eq, ModelConfig.mk.injEq]
    constructor
    · rintro ⟨⟨⟨⟨⟨⟨⟨h1, h2⟩, h3⟩, h4⟩, h5⟩, h6⟩, h7⟩, h8⟩
      exact ⟨h1, h2, h3, h4, h5, (ModelConfig.obeq_iff _ _).1 h6,
        (ModelConfig.obeq_iff _ _).1 h7, (ModelConfig.obeq_iff _ _).1 h8⟩
    · rintro ⟨h1, h2, h3, h4, h5, h6, h7, h8⟩
      exact ⟨⟨⟨⟨⟨⟨⟨h1, h2⟩, h3⟩, h4⟩, h5⟩, (ModelConfig.obeq_iff _ _).2 h6⟩,
        (ModelConfig.obeq_iff _ _).2 h7⟩, (ModelConfig.obeq_iff _ _).2 h8⟩

theorem ModelConfig.obeq_iff : ∀ a b : Option ModelConfig, ModelConfig.obeq a b = true ↔ a = b
  | none, none => by simp [ModelConfig.obeq]
  | some a, some b => by simp [ModelConfig.obeq, ModelConfig.beq_iff a b]
  | none, some b => by simp [ModelConfig.obeq]
  | some a, none => by simp [ModelConfig.obeq]

end

instance : DecidableEq ModelConfig := fun a b =>
  decidable_of_iff (ModelConfig.beq a b = true) (ModelConfig.beq_iff a b)

/-- `BenchmarkConfig` (pydantic model, eval_config.py). `name: str = None`
in the source, hence `Option String` here. -/
structure BenchmarkConfig where
  name : Option String
  dataset : String
  url_pool : Option String
  max_examples : Int
  max_steps : Int
  tasks_per_batch : Int
  example_ids : List String
  example_ids_to_skip : List String
  viewport_size : Option ViewportSize
  headless : Bool
  reset_env : Bool
deriving DecidableEq, Repr

/-- `AgentConfig` (pydantic model, eval_config.py). -/
structure AgentConfig where
  name : String
  model : Option ModelConfig
  model_config_name : Option String
  model_config_names : Option (List String)
deriving DecidableEq

/-- `RunnerConfig` (pydantic model, eval_config.py). -/
structure RunnerConfig where
  threads : Int
  batch_size : Int
  output_dir : String
  timeout_secs : Int
  wandb_project : Option String
  seed : Option Int
  environment_ttl_hours : Option Int
deriving DecidableEq, Repr

/-- `EvalConfig` (pydantic model, eval_config.py). Python `dict`s preserve
insertion order and are traversed in that order by the runner, so they are
modelled as association lists. -/
structure EvalConfig where
  run_name : Option String
  run_id : Option String
  runner : RunnerConfig
  benchmarks : List (String × BenchmarkConfig)
  agents : List (String × AgentConfig)
  model_configs : List (String × ModelConfig)
deriving DecidableEq

/-! ## External collaborators of `eval_runner.py` -/

/-- One entry of the `ENV_CONFIGS` registry (agent/__init__.py): an optional
`env_prefix` and an optional explicit `env_ids` list. -/
structure EnvEntry where
  env_prefix : Option String
  env_ids : Option (List String)

/-- The ambient context of `eval_runner.py`: the gym registry key list,
the `ENV_CONFIGS` dict (`none` models a `KeyError`), and `resolve_attr`
restricted to URL pools. -/
structure EvalContext where
  registry : List String
  envConfigs : String → Option EnvEntry
  resolvePool : String → List String

/-- The `{"start_url": url}` kwargs dict built for open-ended tasks. -/
structure TaskKwargs where
  start_url : String
deriving DecidableEq, Repr

/-! ## `eval_runner.py`: environment selection -/

/-- `select_env_ids` (eval_runner.py lines 63-74): when `env_prefix` is
truthy, entries that do not start with the prefix get the prefix followed
by a dot prepended; every (now prefixed) entry must occur in
`full_env_ids`, else `ValueError` (the source names the first missing id
in the message; the message is modelled as a constant). -/
def select_env_ids (env_ids : List String) ( env_prefix : String)
    (full_env_ids : List String) : Except String (List String) :=
  let env_ids :=
    if env_prefix ≠ "" then
      env_ids.map fun env_id =>
        if pyStartswith env_id env_prefix then env_id
        else env_prefix ++ "." ++ env_id
    else env_ids
  if env_ids.all (fun env_id => full_env_ids.contains env_id) then
    .ok env_ids
  else
    .error "ValueError: Environment not found."

/-- `shuffle_env_ids` (eval_runner.py lines 77-83): despite its name and its
`shuffle_seed` argument, it sorts the ids in reverse (descending)
lexicographic order; the seeded-shuffle body is commented out, so the seed
is unused. -/
def shuffle_env_ids (env_ids : List String) (shuffle_seed : Option Int) :
    List String :=
  env_ids.insertionSort (fun a b => pyStrGe a b = true)

/-- The open-ended sub-branch of `get_env_ids_and_task_kwargs`
(eval_runner.py lines 108-121): duplicate the prefix-matched ids
`max_examples` times; a falsy `url_pool` (`None` or empty string) raises
`ValueError`; otherwise one
`{"start_url": url_pool[i % len(url_pool)]}` kwargs dict is built per
duplicate (`i % 0` raising `ZeroDivisionError` on an empty pool). -/
def openended_expansion (ctx : EvalContext) (benchmark : BenchmarkConfig)
    (ids : List String) :
    Except String (List String × Option (List TaskKwargs)) :=
  let ids := pyListMul ids benchmark.max_examples
  match benchmark.url_pool with
  | none =>
    Except.error
      "ValueError: Open ended benchmarks need to specify BenchmarkConfig.url_pool"
  | some pool_path =>
    if pool_path = "" then
      Except.error
        "ValueError: Open ended benchmarks need to specify BenchmarkConfig.url_pool"
    else
      let url_pool := ctx.resolvePool pool_path
      if benchmark.max_examples > 0 ∧ url_pool = [] then
        Except.error "ZeroDivisionError: integer modulo by zero"
      else
        let task_kwargs :=
          (List.range benchmark.max_examples.toNat).map fun i =>
            TaskKwargs.mk (url_pool.getD (i % url_pool.length) "")
        Except.ok (ids, some task_kwargs)

/-- The `env_prefix` branch of `get_env_ids_and_task_kwargs` (eval_runner.py
lines 99-121): prefix-filter the registry and, when the prefix marks an
open-ended dataset, expand it. -/
def prefix_resolution (ctx : EvalContext) (benchmark : BenchmarkConfig)
    ( env_prefix : String) :
    Except String (List String × Option (List TaskKwargs)) :=
  let ids := ctx.registry.filter fun id => pyStartswith id env_prefix
  if strContains env_prefix "openended" then
    openended_expansion ctx benchmark ids
  else
    Except.ok (ids, none)

/-- Lines 97-140 of `get_env_ids_and_task_kwargs` (eval_runner.py): resolve
the candidate universe from the registry (via `prefix_resolution` when the
dataset declares an `env_prefix`, overridden by the explicit `env_ids`
filter when the dataset declares one), apply the explicit include list via
`select_env_ids`, then drop ids occurring verbatim in the skip list.
This is the whole body before the final `shuffle_env_ids`/truncation
steps, which `get_env_ids_and_task_kwargs` adds on top. -/
def resolved_candidate_ids (ctx : EvalContext) (benchmark : BenchmarkConfig) :
    Except String (List String × Option (List TaskKwargs)) := do
  let entry ← match ctx.envConfigs benchmark.dataset with
    | some e => Except.ok e
    | none => Except.error "KeyError: dataset not in ENV_CONFIGS"
  let (env_ids, task_kwargs) ←
    match EnvEntry.env_prefix entry with
    | some env_prefix => prefix_resolution ctx benchmark env_prefix
    | none => Except.ok (([] : List String), (none : Option (List TaskKwargs)))
  let env_ids :=
    match entry.env_ids with
    | some entry_ids => ctx.registry.filter fun id => entry_ids.contains id
    | none => env_ids
  let env_ids ←
    if benchmark.example_ids ≠ [] then
      select_env_ids benchmark.example_ids ((EnvEntry.env_prefix entry).getD "") env_ids
    else
      Except.ok env_ids
  let env_ids :=
    if benchmark.example_ids_to_skip ≠ [] then
      env_ids.filter fun id => !(benchmark.example_ids_to_skip.contains id)
    else env_ids
  return (env_ids, task_kwargs)

/-- `get_env_ids_and_task_kwargs` (eval_runner.py lines 86-147):
`resolved_candidate_ids` followed by the reverse sort and, when
`max_examples > 0`, truncation to the first `max_examples` ids followed by
a second (no-op) sort. -/
def get_env_ids_and_task_kwargs (ctx : EvalContext)
    (benchmark : BenchmarkConfig) (shuffle_seed : Option Int) :
    Except String (List String × Option (List TaskKwargs)) := do
  let (env_ids, task_kwargs) ← resolved_candidate_ids ctx benchmark
  let env_ids := shuffle_env_ids env_ids shuffle_seed
  let env_ids :=
    if benchmark.max_examples > 0 then
      shuffle_env_ids (env_ids.take benchmark.max_examples.toNat) shuffle_seed
    else env_ids
  return (env_ids, task_kwargs)

/-! ## `frequency_limiter.py` -/

/-- `FrequencyLimiter` state (frequency_limiter.py lines 12-22): the request
limit, the time window, and the deque of recorded timestamps (front =
oldest). -/
structure FrequencyLimiter where
  request_limit : Nat
  time_window_sec : Int
  action_time_queue : List Int
deriving DecidableEq, Repr

/-- The `while len(queue) > limit: queue.popleft()` loop of
`FrequencyLimiter.update` (an empty queue is never longer than the limit,
so the loop only ever pops from a non-empty queue). -/
def popToLimit (limit : Nat) : List Int → List Int
  | [] => []
  | a :: t => if (a :: t).length > limit then popToLimit limit t else a :: t

/-- `FrequencyLimiter.update` (frequency_limiter.py lines 40-47): append
`int(time.time())` (passed here as `now`), then pop from the front while the
queue is longer than `request_limit`. -/
def FrequencyLimiter.update (s : FrequencyLimiter) (now : Int) :
    FrequencyLimiter :=
  { s with action_time_queue := popToLimit s.request_limit (s.action_time_queue ++ [now]) }

/-- `FrequencyLimiter.wait_for` (frequency_limiter.py lines 24-38): when at
least `request_limit` timestamps are recorded and the oldest one is still
inside the window, pop it and return the remaining gap; otherwise return 0
and leave the queue untouched. `none` models the `IndexError` raised by
`self.action_time_queue[0]` when `request_limit = 0` and the queue is
empty. -/
def FrequencyLimiter.wait_for (s : FrequencyLimiter) (now : Int) :
    Option (Int × FrequencyLimiter) :=
  if s.action_time_queue.length ≥ s.request_limit then
    match s.action_time_queue with
    | [] => none
    | oldest :: rest =>
      let gap := oldest + s.time_window_sec - now
      if gap > 0 then
        some (gap, { s with action_time_queue := rest })
      else
        some (0, s)
  else
    some (0, s)

/-! ## `process_utils.py`: `run_with_timeout` -/

/-- `process.join(timeout=timeout_seconds)` (process_utils.py line 48)
blocks until the worker exits or the timeout elapses, whichever is first:
given the worker's remaining running time, the join blocks for
`min remaining timeout`. -/
def joinBlockDuration (remaining timeout_seconds : ℚ) : ℚ :=
  min remaining timeout_seconds

/-- The timeout decision of `run_with_timeout` (process_utils.py lines
50-74): a `TimeoutError` is raised iff `process.is_alive()` was true after
the join AND the elapsed wall-clock time `time.time() - start` genuinely
exceeded `timeout_seconds` (the `is_timeout` flag).  The process-tree kill
happens whenever the worker was observed alive, timeout or not. -/
def run_with_timeout_raises (alive_after_join : Bool)
    (elapsed timeout_seconds : ℚ) : Bool :=
  alive_after_join && decide (elapsed > timeout_seconds)

/-- The budget `run_examples_in_subprocess` passes to `run_with_timeout`
(eval_loop.py lines 293-304): `(timeout + 20) * len(example_env_names)`,
i.e. the per-task timeout plus a fixed 20-second buffer, times the batch
size. -/
def subprocess_budget (timeout : ℚ) (example_env_names : List String) : ℚ :=
  (timeout + 20) * example_env_names.length

/-! ## `eval_loop.py`: the `run_example` agent-interaction loop -/

/-- One observation returned by `env.step(action)` inside `run_example`:
the reward and the two termination flags (the observation content and
`info` never influence the control flow modelled here). -/
structure StepOut where
  reward : ℚ
  terminated : Bool
  truncated : Bool

/-- The `while not done` loop of `run_example` (eval_loop.py lines
157-196).  `stepRes k` is what the `k`-th `env.step` call returns (0-based)
and `elapsed k` the value of `time.time() - start_time` at the wall-clock
check of that iteration.  Each iteration: step the environment; set `done`;
break keeping the step's reward when `done` or `n_steps == max_steps - 1`
(Python `int` arithmetic, hence the comparison in `Int`); break with reward
forced to 0 when the deadline is exceeded; otherwise increment `n_steps`
and continue.  The result is `(final reward, number of env.step calls)`;
`none` means the fuel ran out before the loop ended (the source loop can
genuinely run forever, e.g. with `max_steps = 0` and no deadline). -/
def run_example_loop (stepRes : Nat → StepOut) (elapsed : Nat → ℚ)
    (timeout : ℚ) (max_steps : Int) : Nat → Nat → Option (ℚ × Nat)
  | _, 0 => none
  | n_steps, fuel + 1 =>
    let o := stepRes n_steps
    let done := o.terminated || o.truncated
    if done || (n_steps : Int) = max_steps - 1 then
      some (o.reward, n_steps + 1)
    else if elapsed n_steps > timeout then
      some (0, n_steps + 1)
    else
      run_example_loop stepRes elapsed timeout max_steps (n_steps + 1) fuel

/-! ## `eval_loop.py`: `run_examples_in_subprocess` and its retry wrapper -/

/-- What one `run_with_timeout` dispatch of a batch can do, as observed by
`run_examples_in_subprocess`:
* `genuineTimeout` — `run_with_timeout` raised `TimeoutError`;
* `finished q` — `run_with_timeout` returned; `q` is the content the worker
  managed to put on the output queue (`none` = queue empty, e.g. the worker
  was killed after a non-genuine timeout or crashed before `put`). -/
inductive SubprocAttempt where
  | genuineTimeout
  | finished (queue : Option (List ℚ))

/-- The body of `run_examples_in_subprocess` after `run_with_timeout`
(eval_loop.py lines 292-309): a raised `TimeoutError` propagates (`none`);
otherwise a non-empty queue yields its content and an empty queue yields
`[0] * len(example_env_names)`. -/
def subprocess_attempt_result (n : Nat) : SubprocAttempt → Option (List ℚ)
  | .genuineTimeout => none
  | .finished none => some (List.replicate n 0)
  | .finished (some r) => some r

/-- The `@retry((TimeoutError), tries=3, delay=2)` decorator on
`run_examples_in_subprocess` (eval_loop.py line 283): up to three attempts;
the first attempt that does not raise `TimeoutError` supplies the result;
if all three raise, the `TimeoutError` propagates to the caller (`none`). -/
def run_examples_in_subprocess_retry (n : Nat)
    (attempts : Nat → SubprocAttempt) : Option (List ℚ) :=
  match subprocess_attempt_result n (attempts 0) with
  | some r => some r
  | none =>
    match subprocess_attempt_result n (attempts 1) with
    | some r => some r
    | none => subprocess_attempt_result n (attempts 2)

/-! ## `eval_runner.py`: reward collection in `run_single_benchmark` -/

/-- The single-thread (`runner_config.threads == 1`) reward-collection loop
of `run_single_benchmark` (eval_runner.py lines 307-323): iterate over
`env_ids` in slices of `batch_size` (`env_ids[i : i + batch_size]`,
together with the matching `task_kwargs` slice when present); on success
extend `rewards` with the returned list; when `run_examples` raises, only
print the exception — the batch contributes nothing to `rewards`.
`res` models `run_examples_in_subprocess` for one batch: `none` is a raised
exception (e.g. `TimeoutError` surviving all retries).  A `batch_size` of 0
makes the Python `range` raise `ValueError`; it is modelled as zero
iterations and excluded by the `0 < batch_size` hypotheses below. -/
def collect_rewards_go
    (res : List String → Option (List TaskKwargs) → Option (List ℚ))
    (batch_size : Nat) :
    Nat → List String → Option (List TaskKwargs) → List ℚ
  | 0, _, _ => []
  | fuel + 1, env_ids, task_kwargs =>
    if batch_size = 0 ∨ env_ids = [] then []
    else
      (match res (env_ids.take batch_size) (task_kwargs.map (·.take batch_size)) with
        | some r => r
        | none => []) ++
      collect_rewards_go res batch_size fuel (env_ids.drop batch_size)
        (task_kwargs.map (·.drop batch_size))

/-- Entry point for the loop above with enough fuel: every iteration with
`batch_size ≥ 1` consumes at least one id, so `env_ids.length` iterations
always suffice. -/
def collect_rewards
    (res : List String → Option (List TaskKwargs) → Option (List ℚ))
    (env_ids : List String) (task_kwargs : Option (List TaskKwargs))
    (batch_size : Nat) : List ℚ :=
  collect_rewards_go res batch_size env_ids.length env_ids task_kwargs

/-- The result dict of `run_single_benchmark` (eval_runner.py lines
374-378): `num_success = sum(rewards)`, `num_total = len(rewards)`. -/
structure RunResult where
  num_success : ℚ
  num_total : Nat
deriving DecidableEq, Repr

/-- `run_single_benchmark` (eval_runner.py lines 212-378) on its generic
path: single-thread dispatch (`threads == 1`) and a dataset other than
`"visualwebarena"` (whose ids-with-reset are handled by a separate loop).
Steps modelled: resolve `env_ids`/`task_kwargs`; the
`len(env_ids) == len(task_kwargs)` assertion when kwargs are truthy;
collect the rewards batch-wise; then
`print("Success rate:", sum(rewards) / len(rewards))`, which raises
`ZeroDivisionError` when `rewards` is empty, before the result dict is
returned.  External effects (visualizer URL, model readiness wait, instance
release callback) do not influence the returned data and are not part of
the state modelled. -/
def run_single_benchmark (ctx : EvalContext) (runner_config : RunnerConfig)
    (benchmark : BenchmarkConfig)
    (res : List String → Option (List TaskKwargs) → Option (List ℚ)) :
    Except String RunResult := do
  let (env_ids, task_kwargs) ←
    get_env_ids_and_task_kwargs ctx benchmark runner_config.seed
  if (task_kwargs.getD []) ≠ [] ∧
      (task_kwargs.getD []).length ≠ env_ids.length then
    Except.error "AssertionError: Expect arguments for every environment ID"
  else
    let rewards :=
      collect_rewards res env_ids task_kwargs runner_config.batch_size.toNat
    if rewards.length = 0 then
      Except.error "ZeroDivisionError: division by zero"
    else
      Except.ok ⟨rewards.sum, rewards.length⟩

/-! ## `eval_runner.py`: configuration division -/

/-- `range(0, n, step)` for `step ≥ 1`: the chunk start indices. -/
def pyRangeStep (n step : Nat) : List Nat :=
  (List.range ((n + step - 1) / step)).map (· * step)

/-- `_benchmark_batch_split` (eval_runner.py lines 397-432): resolve the
benchmark's full id list; raise when kwargs are present (truthy) and
`tasks_per_batch > len(full_env_ids)`; with `tasks_per_batch <= 0` return
the one benchmark carrying the full list as `example_ids` (assigning
`name` only when it was falsy); otherwise slice the list into contiguous
chunks of `tasks_per_batch`, each chunk becoming a benchmark keyed
`f"{name}_SPLIT_{start}_{stop}"` with `name` overwritten to the parent
key, `tasks_per_batch = -1` and the re-sorted chunk as `example_ids`. -/
def benchmark_batch_split (ctx : EvalContext) (benchmark_name : String)
    (benchmark : BenchmarkConfig) (shuffle_seed : Option Int)
    (benchmark_split_separator : String := "SPLIT") :
    Except String (List (String × BenchmarkConfig)) := do
  let (full_env_ids, args) ←
    get_env_ids_and_task_kwargs ctx benchmark shuffle_seed
  if (args.getD []) ≠ [] ∧ benchmark.tasks_per_batch > full_env_ids.length then
    Except.error
      "ValueError: Openended tasks are not supported with benchmark splitting right now."
  else if benchmark.tasks_per_batch ≤ 0 then
    Except.ok [(benchmark_name,
      { benchmark with
          example_ids := full_env_ids
          name := if strFalsy benchmark.name then some benchmark_name
                  else benchmark.name })]
  else
    Except.ok <|
      (pyRangeStep full_env_ids.length benchmark.tasks_per_batch.toNat).map
        fun start_idx =>
          let stop_idx := min (start_idx + benchmark.tasks_per_batch.toNat)
            full_env_ids.length
          let batch_env_ids := (full_env_ids.drop start_idx).take
            benchmark.tasks_per_batch.toNat
          (s!"{benchmark_name}_{benchmark_split_separator}_{start_idx}_{stop_idx}",
            { benchmark with
                name := some benchmark_name
                tasks_per_batch := -1
                example_ids := shuffle_env_ids batch_env_ids shuffle_seed })

/-- The agent-normalization loop of `_divide_eval_config` (eval_runner.py
lines 504-517): an inline `model` raises `NotImplementedError`; specifying
both `model_config_name` and `model_config_names` raises `ValueError`; a
sole `model_config_name` is moved into a one-element
`model_config_names`. -/
def normalize_agent (agent : AgentConfig) : Except String AgentConfig :=
  if agent.model ≠ none then
    Except.error "NotImplementedError: specify the model configs in model_configs"
  else
    match agent.model_config_name with
    | some n =>
      if agent.model_config_names ≠ none then
        Except.error
          "ValueError: Both model_config_name and model_config_names are specified"
      else
        Except.ok { agent with
          model_config_names := some [n]
          model_config_name := none }
    | none => Except.ok agent

/-- `_divide_eval_config` (eval_runner.py lines 437-536): split every
benchmark via `_benchmark_batch_split`; normalize every agent's model
reference to `model_config_names`; then emit one config per
(benchmark split × agent × model config name), each carrying exactly that
benchmark, that agent with only `model_config_name` set to the one model
name, and everything else copied from the full config.  Iterating a `None`
`model_config_names` raises `TypeError` in Python.  The source accumulates
split benchmarks with `dict.update`; the association list here keeps
duplicates instead of overwriting, which coincides with the source
whenever the generated benchmark keys are distinct. -/
def divide_eval_config (ctx : EvalContext) (full_config : EvalConfig) :
    Except String (List EvalConfig) := do
  let template_config :=
    { full_config with
        benchmarks := ([] : List (String × BenchmarkConfig))
        agents := ([] : List (String × AgentConfig)) }
  let split_benchmarks ← full_config.benchmarks.mapM fun p =>
    benchmark_batch_split ctx p.1 p.2 full_config.runner.seed
  let all_benchmarks := split_benchmarks.flatten
  let all_agents ← full_config.agents.mapM fun p => do
    let a ← normalize_agent p.2
    return (p.1, a)
  let divided_configs ← all_benchmarks.mapM fun bp => do
    let units ← all_agents.mapM fun ap => do
      let template_agent_config :=
        { ap.2 with
            model := (none : Option ModelConfig)
            model_config_name := (none : Option String)
            model_config_names := (none : Option (List String)) }
      match ap.2.model_config_names with
      | none =>
        Except.error "TypeError: NoneType object is not iterable"
      | some names =>
        Except.ok <| names.map fun model_config_name =>
          { template_config with
              benchmarks := [(bp.1, bp.2)]
              agents := [(ap.1,
                { template_agent_config with
                    model_config_name := some model_config_name })] }
    return units.flatten
  return divided_configs.flatten

/-! ## `eval_runner.py`: WA service instance release callbacks -/

/-- The callback list built by
`_create_all_wa_service_instances_multithreads` (eval_runner.py lines
582-585).  The source reads

    instance_release_callbacks = [
        lambda: wa_service.release_instance(instance_id)
        for instance_id in range(len(instance_ids))
    ]

so (a) the comprehension iterates over `range(len(instance_ids))` — integer
indices, not the collected instance-id strings — and (b) each lambda closes
over the *variable* `instance_id` (Python late binding), which after the
comprehension finishes holds the last index, `len(instance_ids) - 1`.
Each entry of this list is therefore the integer argument the corresponding
callback passes to `wa_service.release_instance` when it is eventually
invoked. -/
def instance_release_callback_args (instance_ids : List String) : List Nat :=
  (List.range instance_ids.length).map fun _ => instance_ids.length - 1

/-- The batch decomposition `[env_ids[i : i + batch_size] for i in
range(0, len(env_ids), batch_size)]` that the collection loop of
`run_single_benchmark` iterates over, with the same fuel pattern as
`collect_rewards_go`. -/
def batchChunksGo (batch_size : Nat) : Nat → List String → List (List String)
  | 0, _ => []
  | fuel + 1, l =>
    if batch_size = 0 ∨ l = [] then []
    else l.take batch_size :: batchChunksGo batch_size fuel (l.drop batch_size)

/-- The list of batches of `env_ids`, in dispatch order. -/
def batchChunks (batch_size : Nat) (l : List String) : List (List String) :=
  batchChunksGo batch_size l.length l

/-! ## Helper lemmas -/

theorem popToLimit_length_le (limit : Nat) (q : List Int) :
    (popToLimit limit q).length ≤ limit := by
  induction q with
  | nil =>
    rw [popToLimit]
    simp
  | cons a t ih =>
    rw [popToLimit]
    split
    · simpa using ih
    · next h => simpa using Nat.le_of_not_lt h

/-! ## Claim theorems -/

/-- C10: the `FrequencyLimiter` keeps its recorded-timestamp queue bounded:
after every `update` the queue holds at most `request_limit` timestamps;
`wait_for` returns 0 whenever fewer than `request_limit` timestamps are
recorded; and it returns a positive wait duration only by consuming
(removing) the oldest recorded timestamp. -/
theorem frequency_limiter_queue_bounded (s : FrequencyLimiter) (now : Int) :
    ((s.update now).action_time_queue.length ≤ s.request_limit) ∧
    (s.action_time_queue.length < s.request_limit →
      s.wait_for now = some (0, s)) ∧
    (∀ gap s', s.wait_for now = some (gap, s') → 0 < gap →
      s.action_time_queue ≠ [] ∧
      s'.action_time_queue = s.action_time_queue.tail) := by
  refine ⟨popToLimit_length_le _ _, ?_, ?_⟩
  · intro h
    rw [FrequencyLimiter.wait_for, if_neg (by omega)]
  · intro gap s' hw hgap
    rw [FrequencyLimiter.wait_for] at hw
    split at hw
    · cases hq : s.action_time_queue with
      | nil => rw [hq] at hw; exact absurd hw (by simp)
      | cons oldest rest =>
        rw [hq] at hw
        simp only at hw
        split at hw
        · obtain ⟨h1, h2⟩ := Prod.mk.injEq .. ▸ Option.some.injEq .. ▸ hw
          refine ⟨by simp [hq], ?_⟩
          simp [← h2, hq]
        · obtain ⟨h1, h2⟩ := Prod.mk.injEq .. ▸ Option.some.injEq .. ▸ hw
          omega
    · obtain ⟨h1, h2⟩ := Prod.mk.injEq .. ▸ Option.some.injEq .. ▸ hw
      omega

/-- Witness for C10: a limiter with limit 2 and one recorded timestamp
returns wait 0, and a saturated limiter with limit 1 and a fresh timestamp
returns a positive wait by popping the oldest entry. -/
theorem frequency_limiter_queue_bounded_witness :
    ((FrequencyLimiter.mk 2 10 [5]).wait_for 6 =
      some (0, FrequencyLimiter.mk 2 10 [5])) ∧
    (([0] : List Int) ≠ [] ∧
      (FrequencyLimiter.mk 1 10 []).action_time_queue = ([0] : List Int).tail) :=
  ⟨(frequency_limiter_queue_bounded (FrequencyLimiter.mk 2 10 [5]) 6).2.1
      (by decide),
    (frequency_limiter_queue_bounded (FrequencyLimiter.mk 1 10 [0]) 5).2.2
      5 (FrequencyLimiter.mk 1 10 []) (by decide) (by decide)⟩

/-- C5: `run_with_timeout` blocks at most the given budget in its `join`,
raises `TimeoutError` iff the worker was still alive after the join and the
elapsed wall-clock time genuinely exceeds the budget (alive but within
budget is never recorded as a timeout), and `run_examples_in_subprocess`
sets the budget to `(timeout + 20) × batch size`. -/
theorem run_with_timeout_spec (remaining budget elapsed timeout : ℚ)
    (alive : Bool) (example_env_names : List String) :
    (joinBlockDuration remaining budget ≤ budget) ∧
    (run_with_timeout_raises alive elapsed budget = true ↔
      alive = true ∧ elapsed > budget) ∧
    (alive = true → elapsed ≤ budget →
      run_with_timeout_raises alive elapsed budget = false) ∧
    (subprocess_budget timeout example_env_names =
      (timeout + 20) * example_env_names.length) := by
  refine ⟨min_le_right _ _, ?_, ?_, rfl⟩
  · simp [run_with_timeout_raises]
  · intro ha hel
    simp [run_with_timeout_raises, ha, not_lt.2 hel]

/-- Witness for C5: a worker observed alive 2 seconds in with a 3-second
budget is not recorded as a timeout, and a batch of two tasks with a
600-second per-task timeout gets a 1240-second budget. -/
theorem run_with_timeout_spec_witness :
    run_with_timeout_raises true 2 3 = false ∧
    subprocess_budget 600 ["a", "b"] = 1240 :=
  ⟨(run_with_timeout_spec 5 3 2 600 true ["a", "b"]).2.2.1 rfl (by norm_num),
    by
      have h := (run_with_timeout_spec 5 3 2 600 true ["a", "b"]).2.2.2
      rw [h]
      norm_num⟩

/-- C7: the release callbacks built by
`_create_all_wa_service_instances_multithreads` do not release each
obtained instance id exactly once: with two successfully created instances
both callbacks pass the same integer index 1 to
`wa_service.release_instance` (the list of passed arguments is not
duplicate-free, index 0 never occurs, and no instance-id string is ever
passed). -/
theorem release_callbacks_duplicate_and_wrong :
    instance_release_callback_args ["i-abc", "i-def"] = [1, 1] ∧
    ¬ (instance_release_callback_args ["i-abc", "i-def"]).Nodup ∧
    (instance_release_callback_args ["i-abc", "i-def"]).count 0 = 0 := by
  refine ⟨rfl, ?_, rfl⟩
  decide

theorem run_example_loop_step_budget (stepRes : Nat → StepOut)
    (elapsed : Nat → ℚ) (timeout : ℚ) (max_steps : Int)
    (hM : 1 ≤ max_steps)
    (hnd : ∀ k, (stepRes k).terminated = false ∧ (stepRes k).truncated = false)
    (hel : ∀ k, elapsed k ≤ timeout) :
    ∀ (fuel n : Nat), n < max_steps.toNat → max_steps.toNat - n ≤ fuel →
      run_example_loop stepRes elapsed timeout max_steps n fuel =
        some ((stepRes (max_steps.toNat - 1)).reward, max_steps.toNat) := by
  intro fuel
  induction fuel with
  | zero => intro n h1 h2; omega
  | succ f ih =>
    intro n h1 h2
    rw [run_example_loop]
    have hd := hnd n
    by_cases hn : (n : Int) = max_steps - 1
    · have hnv : n = max_steps.toNat - 1 := by omega
      rw [if_pos (by simp [hd.1, hd.2, hn])]
      rw [hnv]
      rw [show max_steps.toNat - 1 + 1 = max_steps.toNat from by omega]
    · rw [if_neg (by simp [hd.1, hd.2, hn])]
      rw [if_neg (not_lt.2 (hel n))]
      exact ih (n + 1) (by omega) (by omega)

theorem run_example_loop_deadline (stepRes : Nat → StepOut)
    (elapsed : Nat → ℚ) (timeout : ℚ) (max_steps : Int)
    (hnd : ∀ k, (stepRes k).terminated = false ∧ (stepRes k).truncated = false)
    (j : Nat)
    (hj : ∀ i, i ≤ j → ¬ ((i : Int) = max_steps - 1))
    (hbefore : ∀ i, i < j → elapsed i ≤ timeout)
    (hafter : elapsed j > timeout) :
    ∀ (fuel n : Nat), n ≤ j → j - n < fuel →
      run_example_loop stepRes elapsed timeout max_steps n fuel =
        some (0, j + 1) := by
  intro fuel
  induction fuel with
  | zero => intro n h1 h2; omega
  | succ f ih =>
    intro n h1 h2
    rw [run_example_loop]
    have hd := hnd n
    rw [if_neg (by simp [hd.1, hd.2, hj n h1])]
    rcases eq_or_lt_of_le h1 with heq | hlt
    · subst heq
      rw [if_pos hafter]
    · rw [if_neg (not_lt.2 (hbefore n hlt))]
      exact ih (n + 1) hlt (by omega)

/-- C6 (amended): with an agent that never signals completion and an
environment that never sets `terminated` or `truncated`, and the wall-clock
deadline never exceeded, the `run_example` loop executes exactly
`max_steps` environment steps (for `max_steps ≥ 1`) and ends without
raising — but it returns the reward of the final environment step, not an
unconditional 0; only the wall-clock-deadline exit forces the reward to 0
(exceeding the deadline at iteration `j` before the step budget ends the
loop with reward 0 after `j + 1` steps). -/
theorem run_example_loop_budget_behaviour (stepRes : Nat → StepOut)
    (elapsed : Nat → ℚ) (timeout : ℚ) (max_steps : Int) (fuel : Nat)
    (hnd : ∀ k, (stepRes k).terminated = false ∧ (stepRes k).truncated = false) :
    (1 ≤ max_steps → (∀ k, elapsed k ≤ timeout) → max_steps.toNat ≤ fuel →
      run_example_loop stepRes elapsed timeout max_steps 0 fuel =
        some ((stepRes (max_steps.toNat - 1)).reward, max_steps.toNat)) ∧
    (∀ j : Nat, (∀ i : Nat, i ≤ j → ¬ ((i : Int) = max_steps - 1)) →
      (∀ i : Nat, i < j → elapsed i ≤ timeout) → elapsed j > timeout → j < fuel →
      run_example_loop stepRes elapsed timeout max_steps 0 fuel =
        some (0, j + 1)) := by
  constructor
  · intro hM hel hfuel
    exact run_example_loop_step_budget stepRes elapsed timeout max_steps hM
      hnd hel fuel 0 (by omega) (by omega)
  · intro j hj hbefore hafter hfuel
    exact run_example_loop_deadline stepRes elapsed timeout max_steps hnd j
      hj hbefore hafter fuel 0 (by omega) (by omega)

/-- Witness for C6 (amended): an environment that never terminates and
yields reward 7/2 on every step makes a 3-step loop return that final
reward after exactly 3 steps; and an environment whose clock jumps past the
deadline at the second iteration ends the loop with reward 0 after 2
steps. -/
theorem run_example_loop_budget_behaviour_witness :
    (run_example_loop (fun _ => StepOut.mk (7 / 2) false false)
        (fun _ => 0) 600 3 0 5 = some (7 / 2, 3)) ∧
    (run_example_loop (fun _ => StepOut.mk (7 / 2) false false)
        (fun k => if k = 0 then 0 else 700) 600 9 0 5 = some (0, 2)) :=
  ⟨(run_example_loop_budget_behaviour (fun _ => StepOut.mk (7 / 2) false false)
        (fun _ => 0) 600 3 5 (fun _ => ⟨rfl, rfl⟩)).1
      (by norm_num) (fun _ => by norm_num) (by norm_num),
    (run_example_loop_budget_behaviour (fun _ => StepOut.mk (7 / 2) false false)
        (fun k => if k = 0 then 0 else 700) 600 9 5 (fun _ => ⟨rfl, rfl⟩)).2
      1 (fun i hi => by interval_cases i <;> norm_num)
      (fun i hi => by interval_cases i <;> norm_num) (by norm_num)
      (by norm_num)⟩

/-- C6 (counterexample): a concrete environment that never sets
`terminated` or `truncated` and always yields reward 1, run with
`max_steps = 1` and an untouched deadline, ends the `run_example` loop with
reward 1 — not reward 0 as the claim states. -/
theorem run_example_loop_nonzero_reward_at_budget :
    run_example_loop (fun _ => StepOut.mk 1 false false) (fun _ => 0)
      600 1 0 1 = some (1, 1) ∧ (1 : ℚ) ≠ 0 := by
  constructor
  · rfl
  · norm_num

theorem batchChunksGo_flatten (batch_size : Nat) (hbs : 0 < batch_size) :
    ∀ (fuel : Nat) (l : List String), l.length ≤ fuel →
      (batchChunksGo batch_size fuel l).flatten = l := by
  intro fuel
  induction fuel with
  | zero =>
    intro l h
    rw [List.eq_nil_of_length_eq_zero (Nat.le_zero.1 h)]
    rfl
  | succ fu ih =>
    intro l h
    rw [batchChunksGo]
    by_cases hl : l = []
    · simp [hl]
    · have hcond : ¬ (batch_size = 0 ∨ l = []) := not_or.2 ⟨by omega, hl⟩
      rw [if_neg hcond]
      have hlen : 0 < l.length := List.length_pos.2 hl
      rw [List.flatten_cons, ih (l.drop batch_size) (by simp; omega)]
      exact List.take_append_drop _ _

theorem collect_rewards_go_filter (batch_size : Nat) (hbs : 0 < batch_size)
    (f : String → ℚ) (bad : List String → Bool) :
    ∀ (fuel : Nat) (env_ids : List String) (kw : Option (List TaskKwargs)),
      collect_rewards_go (fun b _ => if bad b then none else some (b.map f))
          batch_size fuel env_ids kw
        = (((batchChunksGo batch_size fuel env_ids).filter
            fun b => !bad b).map fun b => b.map f).flatten := by
  intro fuel
  induction fuel with
  | zero => intro env_ids kw; rfl
  | succ fu ih =>
    intro env_ids kw
    rw [collect_rewards_go, batchChunksGo]
    by_cases hl : env_ids = []
    · simp [hl]
    · have hcond : ¬ (batch_size = 0 ∨ env_ids = []) := not_or.2 ⟨by omega, hl⟩
      simp only [if_neg hcond]
      by_cases hb : bad (env_ids.take batch_size)
      · simp [hb, ih]
      · simp [hb, ih]

/-- C1 (amended): in the single-thread collection loop of
`run_single_benchmark`, each batch whose subprocess call returns
contributes exactly one reward per id, the i-th reward of the batch
corresponding to the i-th id of that batch; a batch whose call raises
(e.g. a `TimeoutError` surviving all retries) is omitted from the
collected rewards entirely — its ids are recorded with no reward at all,
not with reward 0 — while the loop itself completes without crashing.
When no batch fails, the result is exactly one aligned reward per input
id. -/
theorem collect_rewards_alignment (batch_size : Nat) (hbs : 0 < batch_size)
    (f : String → ℚ) (bad : List String → Bool) (env_ids : List String)
    (kw : Option (List TaskKwargs)) :
    (collect_rewards (fun b _ => if bad b then none else some (b.map f))
        env_ids kw batch_size
      = (((batchChunks batch_size env_ids).filter
          fun b => !bad b).map fun b => b.map f).flatten) ∧
    ((∀ b ∈ batchChunks batch_size env_ids, bad b = false) →
      collect_rewards (fun b _ => if bad b then none else some (b.map f))
          env_ids kw batch_size
        = env_ids.map f) := by
  constructor
  · exact collect_rewards_go_filter batch_size hbs f bad env_ids.length env_ids kw
  · intro hall
    unfold collect_rewards
    rw [collect_rewards_go_filter batch_size hbs f bad env_ids.length env_ids kw]
    show ((((batchChunks batch_size env_ids).filter
        fun b => !bad b).map fun b => b.map f).flatten) = env_ids.map f
    rw [List.filter_eq_self.2 (fun b hb => by simp [hall b hb]),
      ← List.map_flatten]
    unfold batchChunks
    rw [batchChunksGo_flatten batch_size hbs _ _ (le_refl _)]

/-- Witness for C1 (amended): with batch size 1 and no failing batch, both
ids of `["p.b", "p.a"]` receive their positionally aligned reward. -/
theorem collect_rewards_alignment_witness :
    collect_rewards
        (fun b _ => if (false : Bool) then none else some (b.map fun _ => (1 : ℚ)))
        ["p.b", "p.a"] none 1 = [1, 1] :=
  (collect_rewards_alignment 1 (by norm_num) (fun _ => (1 : ℚ)) (fun _ => false)
    ["p.b", "p.a"] none).2 (fun b _ => rfl)

/-- C1 (counterexample): a concrete two-id benchmark with batch size 1
where the batch `["p.a"]` raises `TimeoutError` through all three retries:
the run completes (no crash) but collects only one reward for two input
ids — the timed-out batch's id is not recorded with reward 0, it is not
recorded at all, refuting the claim's "exactly one reward per input id". -/
theorem run_single_benchmark_timeout_batch_dropped :
    (get_env_ids_and_task_kwargs
        ⟨["p.a", "p.b"], fun d => if d = "ds" then some ⟨some "p", none⟩ else none,
          fun _ => []⟩
        ⟨none, "ds", none, 0, 20, -1, [], [], none, true, true⟩ none
      = .ok (["p.b", "p.a"], none)) ∧
    (run_examples_in_subprocess_retry 1 (fun _ => SubprocAttempt.genuineTimeout)
      = none) ∧
    (collect_rewards
        (fun b _ => if b = ["p.b"] then some [1]
          else run_examples_in_subprocess_retry b.length
            (fun _ => SubprocAttempt.genuineTimeout))
        ["p.b", "p.a"] none 1 = [1]) ∧
    ((run_single_benchmark
        ⟨["p.a", "p.b"], fun d => if d = "ds" then some ⟨some "p", none⟩ else none,
          fun _ => []⟩
        ⟨1, 1, "out", 600, none, none, none⟩
        ⟨none, "ds", none, 0, 20, -1, [], [], none, true, true⟩
        (fun b _ => if b = ["p.b"] then some [1]
          else run_examples_in_subprocess_retry b.length
            (fun _ => SubprocAttempt.genuineTimeout))).map
      (fun r => r.num_total) = .ok 1) ∧
    (1 : Nat) ≠ 2 :=
  ⟨rfl, rfl, rfl, rfl, by omega⟩

/-- C2 (counterexample): a benchmark whose specification resolves to zero
environment ids (empty registry) does not complete successfully:
`run_single_benchmark` hits `sum(rewards) / len(rewards)` with
`len(rewards) = 0` and raises `ZeroDivisionError` instead of returning an
empty result. -/
theorem run_single_benchmark_zero_ids_crashes :
    (get_env_ids_and_task_kwargs
        ⟨[], fun d => if d = "miniwob" then some ⟨some "browsergym/miniwob", none⟩
          else none, fun _ => []⟩
        ⟨none, "miniwob", none, 0, 20, -1, [], [], none, true, true⟩ none
      = .ok ([], none)) ∧
    (run_single_benchmark
        ⟨[], fun d => if d = "miniwob" then some ⟨some "browsergym/miniwob", none⟩
          else none, fun _ => []⟩
        ⟨1, 1, "out", 600, none, none, none⟩
        ⟨none, "miniwob", none, 0, 20, -1, [], [], none, true, true⟩
        (fun _ _ => some [])
      = .error "ZeroDivisionError: division by zero") :=
  ⟨rfl, rfl⟩

/-- C2 (amended): a benchmark resolving to zero environment ids does not
yield an empty successful run: `run_single_benchmark` raises — the
success-rate division `sum(rewards) / len(rewards)` is a
`ZeroDivisionError` on the empty reward list (and when non-empty task
kwargs accompany zero ids, the earlier length assertion fails instead). -/
theorem run_single_benchmark_zero_ids_raises (ctx : EvalContext)
    (runner_config : RunnerConfig) (benchmark : BenchmarkConfig)
    (res : List String → Option (List TaskKwargs) → Option (List ℚ))
    (kw : Option (List TaskKwargs))
    (h : get_env_ids_and_task_kwargs ctx benchmark runner_config.seed
      = .ok ([], kw)) :
    (kw.getD [] = [] →
      run_single_benchmark ctx runner_config benchmark res
        = .error "ZeroDivisionError: division by zero") ∧
    (kw.getD [] ≠ [] →
      run_single_benchmark ctx runner_config benchmark res
        = .error "AssertionError: Expect arguments for every environment ID") := by
  have hred : run_single_benchmark ctx runner_config benchmark res
      = if (kw.getD []) ≠ [] ∧ (kw.getD []).length ≠ ([] : List String).length
        then Except.error "AssertionError: Expect arguments for every environment ID"
        else Except.error "ZeroDivisionError: division by zero" := by
    unfold run_single_benchmark
    rw [h]
    rfl
  constructor
  · intro hkw
    rw [hred, if_neg (by simp [hkw])]
  · intro hkw
    rw [hred, if_pos ⟨hkw, by simpa using hkw⟩]

/-- Witness for C2 (amended): the concrete zero-id benchmark from the
empty registry indeed raises `ZeroDivisionError`. -/
theorem run_single_benchmark_zero_ids_raises_witness :
    run_single_benchmark
        ⟨[], fun d => if d = "wl" then some ⟨some "browsergym/wl", none⟩
          else none, fun _ => []⟩
        ⟨2, 1, "out", 600, none, none, none⟩
        ⟨none, "wl", none, 0, 20, -1, [], [], none, true, true⟩
        (fun _ _ => some [])
      = .error "ZeroDivisionError: division by zero" :=
  (run_single_benchmark_zero_ids_raises
      ⟨[], fun d => if d = "wl" then some ⟨some "browsergym/wl", none⟩
        else none, fun _ => []⟩
      ⟨2, 1, "out", 600, none, none, none⟩
      ⟨none, "wl", none, 0, 20, -1, [], [], none, true, true⟩
      (fun _ _ => some []) none rfl).1 rfl

/-- C3: an open-ended benchmark (its resolution produces per-id
construction arguments) with the positive shard size `tasks_per_batch = 2`
and four resolved ids is *not* rejected by `_benchmark_batch_split`: the
guard compares `tasks_per_batch > len(full_env_ids)` (here `2 > 4`, false)
instead of `tasks_per_batch > 0`, so the open-ended dataset is silently
split into two shards, contradicting the function's own error message
"Openended tasks are not supported with benchmark splitting right now." -/
theorem benchmark_batch_split_openended_not_rejected :
    (get_env_ids_and_task_kwargs
        ⟨["openended.t"], fun d => if d = "op" then some ⟨some "openended", none⟩
          else none, fun p => if p = "pool" then ["u1", "u2"] else []⟩
        ⟨none, "op", some "pool", 4, 20, 2, [], [], none, true, true⟩ none
      = .ok (["openended.t", "openended.t", "openended.t", "openended.t"],
          some [⟨"u1"⟩, ⟨"u2"⟩, ⟨"u1"⟩, ⟨"u2"⟩])) ∧
    (benchmark_batch_split
        ⟨["openended.t"], fun d => if d = "op" then some ⟨some "openended", none⟩
          else none, fun p => if p = "pool" then ["u1", "u2"] else []⟩
        "bm" ⟨none, "op", some "pool", 4, 20, 2, [], [], none, true, true⟩ none
      = .ok
        [("bm_SPLIT_0_2",
          ⟨some "bm", "op", some "pool", 4, 20, -1,
            ["openended.t", "openended.t"], [], none, true, true⟩),
         ("bm_SPLIT_2_4",
          ⟨some "bm", "op", some "pool", 4, 20, -1,
            ["openended.t", "openended.t"], [], none, true, true⟩)]) :=
  ⟨rfl, rfl⟩

/-! ## Ordering facts for C8 -/

theorem charListLe_total : ∀ a b : List Char,
    charListLe a b = true ∨ charListLe b a = true
  | [], _ => Or.inl rfl
  | _ :: _, [] => Or.inr rfl
  | a :: as, b :: bs => by
    rcases Nat.lt_trichotomy a.toNat b.toNat with h | h | h
    · left
      rw [charListLe, if_pos h]
    · rcases charListLe_total as bs with ih | ih
      · left
        rw [charListLe, if_neg (by omega), if_pos h]
        exact ih
      · right
        rw [charListLe, if_neg (by omega), if_pos h.symm]
        exact ih
    · right
      rw [charListLe, if_pos h]

theorem charListLe_trans : ∀ a b c : List Char,
    charListLe a b = true → charListLe b c = true → charListLe a c = true
  | [], _, _ => fun _ _ => rfl
  | a :: as, [], c => fun h _ => by rw [charListLe] at h; exact absurd h (by simp)
  | a :: as, b :: bs, [] => fun _ h => by rw [charListLe] at h; exact absurd h (by simp)
  | a :: as, b :: bs, c :: cs => fun h1 h2 => by
    rw [charListLe] at h1 h2 ⊢
    split at h1
    · next hab =>
      split at h2
      · next hbc => rw [if_pos (by omega)]
      · split at h2
        · next hbc => rw [if_pos (by omega)]
        · exact absurd h2 (by simp)
    · split at h1
      · next hab' =>
        split at h2
        · next hbc => rw [if_pos (by omega)]
        · split at h2
          · next hbc =>
            rw [if_neg (by omega), if_pos (by omega)]
            exact charListLe_trans as bs cs h1 h2
          · exact absurd h2 (by simp)
      · exact absurd h1 (by simp)

instance : IsTotal String (fun a b => pyStrGe a b = true) :=
  ⟨fun a b => (charListLe_total b.data a.data).elim Or.inl Or.inr⟩

instance : IsTrans String (fun a b => pyStrGe a b = true) :=
  ⟨fun _ b _ h1 h2 => charListLe_trans _ b.data _ h2 h1⟩

/-- C8: the id list produced by `get_env_ids_and_task_kwargs` is
independent of the ordering seed (the seeded shuffle is commented out) and
is sorted in reverse (descending) lexicographic order of the identifier
strings; when `max_examples > 0` the result is exactly the first
`max_examples` elements of the descending sort of the resolved candidate
list — truncation happens after ordering (the re-sort after truncation is
a no-op on the already sorted prefix). -/
theorem env_selection_deterministic_sorted (ctx : EvalContext)
    (b : BenchmarkConfig) (s1 s2 : Option Int) (ids : List String)
    (kw : Option (List TaskKwargs))
    (h : get_env_ids_and_task_kwargs ctx b s1 = .ok (ids, kw)) :
    (get_env_ids_and_task_kwargs ctx b s2 = .ok (ids, kw)) ∧
    (List.Sorted (fun a b => pyStrGe a b = true) ids) ∧
    (∀ cands kw0, resolved_candidate_ids ctx b = .ok (cands, kw0) →
      b.max_examples > 0 →
        ids = (shuffle_env_ids cands s1).take b.max_examples.toNat) := by
  refine ⟨(show get_env_ids_and_task_kwargs ctx b s2
      = get_env_ids_and_task_kwargs ctx b s1 from rfl).trans h, ?_, ?_⟩
  · cases hr : resolved_candidate_ids ctx b with
    | error e =>
      unfold get_env_ids_and_task_kwargs at h
      rw [hr] at h
      exact absurd h (by simp [Bind.bind, Except.bind])
    | ok p =>
      obtain ⟨cands0, kw0⟩ := p
      unfold get_env_ids_and_task_kwargs at h
      rw [hr] at h
      have h2 : (Except.ok
          ((if b.max_examples > 0 then
              shuffle_env_ids ((shuffle_env_ids cands0 s1).take
                b.max_examples.toNat) s1
            else shuffle_env_ids cands0 s1), kw0)
          : Except String (List String × Option (List TaskKwargs)))
          = .ok (ids, kw) := h
      obtain ⟨h3, -⟩ := Prod.mk.injEq .. ▸ Except.ok.injEq .. ▸ h2
      rw [← h3]
      split
      · exact List.sorted_insertionSort _ _
      · exact List.sorted_insertionSort _ _
  · intro cands kw0 hres hmax
    cases hr : resolved_candidate_ids ctx b with
    | error e => rw [hr] at hres; exact absurd hres (by simp)
    | ok p =>
      obtain ⟨cands1, kw1⟩ := p
      rw [hr] at hres
      obtain ⟨hc, -⟩ := Prod.mk.injEq .. ▸ Except.ok.injEq .. ▸ hres
      unfold get_env_ids_and_task_kwargs at h
      rw [hr] at h
      have h2 : (Except.ok
          ((if b.max_examples > 0 then
              shuffle_env_ids ((shuffle_env_ids cands1 s1).take
                b.max_examples.toNat) s1
            else shuffle_env_ids cands1 s1), kw1)
          : Except String (List String × Option (List TaskKwargs)))
          = .ok (ids, kw) := h
      obtain ⟨h3, -⟩ := Prod.mk.injEq .. ▸ Except.ok.injEq .. ▸ h2
      rw [← h3, if_pos hmax, ← hc]
      have hsorted : List.Sorted (fun a b => pyStrGe a b = true)
          ((shuffle_env_ids cands1 s1).take b.max_examples.toNat) :=
        List.Pairwise.sublist (List.take_sublist _ _)
          (List.sorted_insertionSort _ _)
      exact List.Sorted.insertionSort_eq hsorted

/-- Witness for C8: three prefix-registry ids with `max_examples = 2` and
two different seeds yield the same descending list, truncated after
sorting. -/
theorem env_selection_deterministic_sorted_witness :
    (get_env_ids_and_task_kwargs
        ⟨["p.b", "p.a", "p.c"], fun d => if d = "ds" then some ⟨some "p", none⟩
          else none, fun _ => []⟩
        ⟨none, "ds", none, 2, 20, -1, [], [], none, true, true⟩ (some 99)
      = .ok (["p.c", "p.b"], none)) ∧
    (List.Sorted (fun a b => pyStrGe a b = true) ["p.c", "p.b"]) ∧
    (["p.c", "p.b"]
      = (shuffle_env_ids ["p.b", "p.a", "p.c"] (some 7)).take 2) := by
  have h := env_selection_deterministic_sorted
    ⟨["p.b", "p.a", "p.c"], fun d => if d = "ds" then some ⟨some "p", none⟩
      else none, fun _ => []⟩
    ⟨none, "ds", none, 2, 20, -1, [], [], none, true, true⟩
    (some 7) (some 99) ["p.c", "p.b"] none rfl
  exact ⟨h.1, h.2.1, h.2.2 ["p.b", "p.a", "p.c"] none rfl (by norm_num)⟩

/-! ## Prefix facts for C9 -/

theorem string_data_append (a b : String) : (a ++ b).data = a.data ++ b.data := by
  cases a
  cases b
  rfl

theorem pyStartswith_append (pre rest : String) :
    pyStartswith (pre ++ rest) pre = true := by
  simp only [pyStartswith, string_data_append, List.isPrefixOf_iff_prefix]
  exact List.prefix_append _ _

theorem string_append_assoc (a b c : String) : a ++ b ++ c = a ++ (b ++ c) := by
  cases a with
  | mk x =>
    cases b with
    | mk y =>
      cases c with
      | mk z =>
        show String.mk (x ++ y ++ z) = String.mk (x ++ (y ++ z))
        rw [List.append_assoc]

theorem mem_pyListMul {a : α} {l : List α} {k : Int} (h : a ∈ pyListMul l k) :
    a ∈ l := by
  unfold pyListMul at h
  rcases List.mem_flatten.1 h with ⟨l', hl', ha⟩
  rwa [List.eq_of_mem_replicate hl'] at ha

theorem prefix_resolution_prefixed (ctx : EvalContext) (b : BenchmarkConfig)
    (pre : String) (p : List String × Option (List TaskKwargs))
    (h : prefix_resolution ctx b pre = .ok p) :
    ∀ e ∈ p.1, pyStartswith e pre = true := by
  simp only [prefix_resolution] at h
  split at h
  · simp only [openended_expansion] at h
    split at h
    · exact absurd h (by simp)
    · split at h
      · exact absurd h (by simp)
      · split at h
        · exact absurd h (by simp)
        · have h' := Except.ok.injEq .. ▸ h
          intro e he
          rw [← h'] at he
          exact (List.mem_filter.1 (mem_pyListMul he)).2
  · have h' := Except.ok.injEq .. ▸ h
    intro e he
    rw [← h'] at he
    exact (List.mem_filter.1 he).2

theorem select_env_ids_spec (ids : List String) (pre : String)
    (full out : List String) (hpre : pre ≠ "")
    (h : select_env_ids ids pre full = .ok out) :
    out = ids.map (fun e => if pyStartswith e pre then e
      else pre ++ "." ++ e) ∧
    (∀ e ∈ out, full.contains e = true) ∧
    (∀ e ∈ out, pyStartswith e pre = true) := by
  simp only [select_env_ids] at h
  rw [if_pos hpre] at h
  split at h
  · next hall =>
    have h' := Except.ok.injEq .. ▸ h
    subst h'
    refine ⟨rfl, fun e he => ?_, fun e he => ?_⟩
    · exact List.all_eq_true.1 hall e he
    · rcases List.mem_map.1 he with ⟨x, -, hx⟩
      subst hx
      split
      · next hs => exact hs
      · rw [string_append_assoc]
        exact pyStartswith_append pre ("." ++ x)
  · exact absurd h (by simp)

theorem exceptBind_congr {ε α β : Type} {x : Except ε α}
    {f g : α → Except ε β} (h : ∀ a, x = .ok a → f a = g a) :
    x.bind f = x.bind g := by
  cases x with
  | error e => rfl
  | ok a => exact h a rfl

/-- C9: for a dataset declaring an `env_prefix` (such entries of
`ENV_CONFIGS` declare no `env_ids` list), entries of the explicit include
list lacking the prefix are prefixed with the prefix and a dot before the
membership validation, whereas the exclude list is compared verbatim
against the fully-prefixed resolved ids — so when every exclude entry
lacks the prefix, dropping the exclude list entirely does not change the
resolved selection. -/
theorem include_prefixed_exclude_verbatim (ctx : EvalContext)
    (b : BenchmarkConfig) (pre : String)
    (hentry : ctx.envConfigs b.dataset = some ⟨some pre, none⟩)
    (hpre : pre ≠ "")
    (hskip : ∀ s ∈ b.example_ids_to_skip, pyStartswith s pre = false) :
    (∀ ids full out, select_env_ids ids pre full = .ok out →
      out = ids.map (fun e => if pyStartswith e pre then e
        else pre ++ "." ++ e)) ∧
    (resolved_candidate_ids ctx b
      = resolved_candidate_ids ctx { b with example_ids_to_skip := [] }) := by
  have hrun : ∀ skip : List String,
      resolved_candidate_ids ctx { b with example_ids_to_skip := skip }
      = (prefix_resolution ctx b pre).bind (fun p =>
          if b.example_ids ≠ [] then
            (select_env_ids b.example_ids pre p.1).bind (fun env_ids =>
              Except.ok (if skip ≠ [] then
                  env_ids.filter (fun id => !(skip.contains id))
                else env_ids, p.2))
          else
            (Except.ok p.1 : Except String (List String)).bind (fun env_ids =>
              Except.ok (if skip ≠ [] then
                  env_ids.filter (fun id => !(skip.contains id))
                else env_ids, p.2))) := by
    intro skip
    unfold resolved_candidate_ids
    rw [show ctx.envConfigs ({ b with example_ids_to_skip := skip } :
        BenchmarkConfig).dataset = some ⟨some pre, none⟩ from hentry]
    rfl
  refine ⟨fun ids full out h => (select_env_ids_spec ids pre full out hpre h).1, ?_⟩
  have h1 := hrun b.example_ids_to_skip
  have h2 := hrun []
  rw [show ({ b with example_ids_to_skip := b.example_ids_to_skip } :
      BenchmarkConfig) = b from rfl] at h1
  rw [h1, h2]
  apply exceptBind_congr
  intro p hp
  have hfix : ∀ env_ids2 : List String,
      (∀ e ∈ env_ids2, pyStartswith e pre = true) →
      (if b.example_ids_to_skip ≠ [] then
          env_ids2.filter (fun id => !(b.example_ids_to_skip.contains id))
        else env_ids2)
      = (if ([] : List String) ≠ [] then
          env_ids2.filter (fun id => !(([] : List String).contains id))
        else env_ids2) := by
    intro env_ids2 hall
    by_cases hsk : b.example_ids_to_skip = []
    · simp [hsk]
    · rw [if_pos hsk, if_neg (by simp : ¬(([] : List String) ≠ []))]
      refine List.filter_eq_self.2 fun e he => ?_
      have hmem : e ∉ b.example_ids_to_skip := fun hin => by
        have hf := hskip e hin
        rw [hall e he] at hf
        exact absurd hf (by simp)
      simp [hmem]
  split
  · next hex =>
    apply exceptBind_congr
    intro env_ids2 hsel
    rw [hfix env_ids2 ((select_env_ids_spec _ _ _ _ hpre hsel).2.2)]
  · apply exceptBind_congr
    intro env_ids2 hsel
    have h' := Except.ok.injEq .. ▸ hsel
    refine congrArg Except.ok (congrArg (fun l => (l, p.2)) ?_)
    refine hfix env_ids2 fun e he => ?_
    rw [← h'] at he
    exact prefix_resolution_prefixed ctx b pre p hp e he

/-- Witness for C9: the unprefixed include entry `"a"` is prefixed to
`"p.a"` before validation, and the unprefixed exclude entry `"b"` removes
nothing: the resolution with and without the exclude list coincide. -/
theorem include_prefixed_exclude_verbatim_witness :
    (["p.a", "p.b"] = ["a", "p.b"].map (fun e => if pyStartswith e "p" then e
      else "p" ++ "." ++ e)) ∧
    (resolved_candidate_ids
        ⟨["p.a", "p.b"], fun d => if d = "ds" then some ⟨some "p", none⟩
          else none, fun _ => []⟩
        ⟨none, "ds", none, 0, 20, -1, ["a", "p.b"], ["b"], none, true, true⟩
      = resolved_candidate_ids
        ⟨["p.a", "p.b"], fun d => if d = "ds" then some ⟨some "p", none⟩
          else none, fun _ => []⟩
        ⟨none, "ds", none, 0, 20, -1, ["a", "p.b"], [], none, true, true⟩) := by
  have h := include_prefixed_exclude_verbatim
    ⟨["p.a", "p.b"], fun d => if d = "ds" then some ⟨some "p", none⟩
      else none, fun _ => []⟩
    ⟨none, "ds", none, 0, 20, -1, ["a", "p.b"], ["b"], none, true, true⟩
    "p" rfl (by decide) (by decide)
  exact ⟨h.1 ["a", "p.b"] ["p.a", "p.b"] ["p.a", "p.b"] rfl, h.2⟩

/-- C4: `_divide_eval_config` is not a fixed point on its own output,
contrary to its docstring ("if we input each divided config back into this
function, it outputs the same config in a list of length 1").  A valid
config whose benchmark includes `["p.a"]` and excludes `["p.a"]` resolves
to zero ids, so its single divided unit `u` carries `example_ids = []`;
re-dividing `u` treats the empty include list as "no include list"
(Python falsiness), re-resolves the full registry universe and produces a
unit carrying `example_ids = ["p.b"]` ≠ `u`. -/
theorem divide_eval_config_not_fixed_point :
    (divide_eval_config
        ⟨["p.a", "p.b"], fun d => if d = "ds" then some ⟨some "p", none⟩
          else none, fun _ => []⟩
        ⟨none, none, ⟨1, 1, "out", 600, none, none, none⟩,
          [("bm", ⟨none, "ds", none, 0, 20, -1, ["p.a"], ["p.a"], none,
            true, true⟩)],
          [("ag", ⟨"ag", none, some "m", none⟩)], []⟩
      = .ok [⟨none, none, ⟨1, 1, "out", 600, none, none, none⟩,
          [("bm", ⟨some "bm", "ds", none, 0, 20, -1, [], ["p.a"], none,
            true, true⟩)],
          [("ag", ⟨"ag", none, some "m", none⟩)], []⟩]) ∧
    (divide_eval_config
        ⟨["p.a", "p.b"], fun d => if d = "ds" then some ⟨some "p", none⟩
          else none, fun _ => []⟩
        ⟨none, none, ⟨1, 1, "out", 600, none, none, none⟩,
          [("bm", ⟨some "bm", "ds", none, 0, 20, -1, [], ["p.a"], none,
            true, true⟩)],
          [("ag", ⟨"ag", none, some "m", none⟩)], []⟩
      = .ok [⟨none, none, ⟨1, 1, "out", 600, none, none, none⟩,
          [("bm", ⟨some "bm", "ds", none, 0, 20, -1, ["p.b"], ["p.a"], none,
            true, true⟩)],
          [("ag", ⟨"ag", none, some "m", none⟩)], []⟩]) ∧
    ((⟨none, none, ⟨1, 1, "out", 600, none, none, none⟩,
        [("bm", ⟨some "bm", "ds", none, 0, 20, -1, ["p.b"], ["p.a"], none,
          true, true⟩)],
        [("ag", ⟨"ag", none, some "m", none⟩)], []⟩ : EvalConfig)
      ≠ ⟨none, none, ⟨1, 1, "out", 600, none, none, none⟩,
        [("bm", ⟨some "bm", "ds", none, 0, 20, -1, [], ["p.a"], none,
          true, true⟩)],
        [("ag", ⟨"ag", none, some "m", none⟩)], []⟩) :=
  ⟨rfl, rfl, by decide⟩

end WarcBench
